import Mathlib

/-!
Shallow embedding of the query-and-aggregation pipeline of the Azure pricing
MCP server (`azure_pricing_mcp_server.py`): the four tool operations
`list_service_families`, `get_products`, `get_service_names` and
`get_monthly_cost`, together with the pagination loop, the
projection/deduplication steps and the cost aggregation they use.

Modelling conventions:
- JSON records are modelled as structures whose optional fields carry the
  `.get` defaults the Python code applies (`""` for missing strings,
  `"USD"` for a missing currency code).
- Each HTTP request outcome is an input of the model: `Except String Page`
  for a page fetch (`.error` models a raised `requests.RequestException`),
  and a function `String → Except String Page` for following continuation
  links.
- Python dicts returned by the tools are modelled as structures; a key that
  is absent in some branch becomes an `Option` field set to `none` there.
- Prices are exact rationals (`ℚ`); Python floats are not modelled bit for
  bit, but every claim under study is about the algebraic form of the
  computation, which the rationals represent faithfully.
-/

/-- A single-quote character, used when building OData filter strings. -/
def singleQuote : String := String.singleton (Char.ofNat 39)

/-- `quoted s` is `s` wrapped in single quotes, as the f-strings do. -/
def quoted (s : String) : String := singleQuote ++ s ++ singleQuote

/-- `charsContain needle hay` is true when `needle` occurs as a contiguous
run inside `hay`. -/
def charsContain (needle : List Char) : List Char → Bool
  | [] => needle.isEmpty
  | c :: rest => needle.isPrefixOf (c :: rest) || charsContain needle rest

/-- Python `needle in hay` substring test. -/
def strContains (hay needle : String) : Bool :=
  charsContain needle.toList hay.toList

/-- One upstream catalog entry, with `.get` defaults applied for absent keys. -/
structure PriceRecord where
  serviceFamily : String := ""
  serviceName : String := ""
  productName : String := ""
  skuName : String := ""
  meterName : String := ""
  armRegionName : String := ""
  unitOfMeasure : String := ""
  retailPrice : ℚ := 0
  currencyCode : String := "USD"
deriving DecidableEq

/-- One upstream JSON response page: `Items` and `NextPageLink`
(`none` models an absent or null link). -/
structure Page where
  items : List PriceRecord
  nextPageLink : Option String
deriving DecidableEq

/-- Code-point lexicographic order on character lists, Python's string
comparison. -/
def charListLe : List Char → List Char → Bool
  | [], _ => true
  | _ :: _, [] => false
  | a :: as, b :: bs => if a = b then charListLe as bs else decide (a < b)

/-- Python `str` comparison: lexicographic by code point. -/
def strLe (a b : String) : Bool := charListLe a.toList b.toList

/-- Python `list(set(...))` over truthy names followed by `.sort()`:
drop empty strings, deduplicate, sort alphabetically. `insertionSort` is a
stable sort, so it computes the same list as Python's stable `.sort()`
(and here the inputs are already deduplicated). -/
def uniqueSorted (names : List String) : List String :=
  List.insertionSort (fun a b => strLe a b = true)
    ((names.filter (fun s => s ≠ "")).dedup)

/-- The `$filter` expression built by `get_products` (clauses joined with
`and`, one per non-empty argument, family clause always present). -/
def buildProductsFilter (service_family region ty service_name : String) : String :=
  let f := "serviceFamily eq " ++ quoted service_family
  let f := if region ≠ "" then f ++ " and armRegionName eq " ++ quoted region else f
  let f := if ty ≠ "" then f ++ " and type eq " ++ quoted ty else f
  if service_name ≠ "" then f ++ " and serviceName eq " ++ quoted service_name else f

/-- The `$filter` expression built by `get_monthly_cost`. -/
def buildCostFilter (product_name region ty : String) : String :=
  let f := "productName eq " ++ quoted product_name ++ " and armRegionName eq " ++ quoted region
  if ty ≠ "" then f ++ " and type eq " ++ quoted ty else f

/-- Page cap of the pagination loop (`max_pages = 3`). -/
def maxPages : Nat := 3

/-- The `while next_page_link and page_count < max_pages` loop of
`get_products`. `fuel` stands for `max_pages - page_count`, so the guard
`page_count < max_pages` is `fuel ≠ 0`. A fetch failure breaks out of the
loop, keeping the accumulated records. Returns the accumulated records,
the final `page_count` and the final `next_page_link`. -/
def paginateLoop (fetch : String → Except String Page) :
    Nat → Option String → List PriceRecord → Nat →
    List PriceRecord × Nat × Option String
  | 0, link, acc, pc => (acc, pc, link)
  | _ + 1, none, acc, pc => (acc, pc, none)
  | fuel + 1, some l, acc, pc =>
    match fetch l with
    | .error _ => (acc, pc, some l)
    | .ok page => paginateLoop fetch fuel page.nextPageLink (acc ++ page.items) (pc + 1)

/-- All records accumulated by `get_products` for a non-empty first page
`pg`: the loop starts from `page_count = 1` with the first page's items. -/
def paginateAll (pg : Page) (fetch : String → Except String Page) : List PriceRecord :=
  (paginateLoop fetch (maxPages - 1) pg.nextPageLink pg.items 1).1

/-- The client-side product-name filter: applied only when the filter string
is non-empty, as a case-insensitive substring match on `productName`. -/
def applyNameFilter (product_name_contains : String) (l : List PriceRecord) :
    List PriceRecord :=
  if product_name_contains ≠ "" then
    l.filter (fun it => strContains it.productName.toLower product_name_contains.toLower)
  else l

/-- The sorted deduplicated product names `get_products` computes from a
non-empty first page, after pagination and the client-side filter. -/
def allNamesOf (product_name_contains : String) (pg : Page)
    (fetch : String → Except String Page) : List String :=
  uniqueSorted ((applyNameFilter product_name_contains (paginateAll pg fetch)).map
    PriceRecord.productName)

/-- The success dict returned by `get_products` (both the empty-first-page
branch and the main branch; `message` is absent in the main branch). -/
structure ProductsOk where
  product_names : List String
  count : Nat
  total_products : Nat
  total_products_processed : Nat
  was_limited : Bool
  limit_applied : Option Int
  status : String
  message : Option String
  filter_applied : String
  product_name_filter : Option String
deriving DecidableEq

/-- A `get_products` response: either one of the success-shaped dicts or the
`{"error": ..., "status": "error"}` dict built on a first-request failure. -/
inductive ProductsResponse where
  | dict (r : ProductsOk)
  | connError (msg : String)
deriving DecidableEq

/-- The dict returned by `get_products` when the first page has no items. -/
def emptyProductsOk (service_family product_name_contains : String)
    (limit : Int) (filter_params : String) : ProductsOk :=
  { product_names := []
    count := 0
    total_products := 0
    total_products_processed := 0
    was_limited := false
    limit_applied := if 0 < limit then some limit else none
    status := "success"
    message := some ("No products found for family " ++ quoted service_family ++
      " with the applied filters.")
    filter_applied := filter_params
    product_name_filter :=
      if product_name_contains ≠ "" then some product_name_contains else none }

/-- The dict returned by the main branch of `get_products`: paginate from
the non-empty first page `pg`, apply the client-side name filter,
deduplicate and sort the names, truncate to `limit` when applicable. -/
def mainProductsOk (product_name_contains : String) (limit : Int)
    (filter_params : String) (pg : Page)
    (fetch : String → Except String Page) : ProductsOk :=
  let all_items := applyNameFilter product_name_contains (paginateAll pg fetch)
  let product_names := allNamesOf product_name_contains pg fetch
  let limited :=
    if 0 < limit ∧ limit < (product_names.length : Int) then
      product_names.take limit.toNat
    else product_names
  { product_names := limited
    count := limited.length
    total_products := product_names.length
    total_products_processed := all_items.length
    was_limited := decide (0 < limit ∧ limit < (product_names.length : Int))
    limit_applied := if 0 < limit then some limit else none
    status := "success"
    message := none
    filter_applied := filter_params
    product_name_filter :=
      if product_name_contains ≠ "" then some product_name_contains else none }

/-- `get_products`: first request outcome `first`, continuation fetches
`fetch`. Mirrors the Python control flow: first-request failure is caught by
the outer handler; an empty first page short-circuits with a message; the
main branch paginates, filters, deduplicates, sorts and truncates. -/
def get_products (service_family region ty service_name product_name_contains : String)
    (limit : Int) (first : Except String Page)
    (fetch : String → Except String Page) : ProductsResponse :=
  let filter_params := buildProductsFilter service_family region ty service_name
  match first with
  | .error e => .connError ("Error connecting to API: " ++ e)
  | .ok result =>
    if result.items.length = 0 then
      .dict (emptyProductsOk service_family product_name_contains limit filter_params)
    else
      .dict (mainProductsOk product_name_contains limit filter_params result fetch)

/-- The `status` value of a `get_products` response (always present). -/
def ProductsResponse.statusOf : ProductsResponse → String
  | .dict r => r.status
  | .connError _ => "error"

/-- Python `products_result.get("count", 0)`: the error dict has no `count`
key, so the lookup defaults to `0`. -/
def ProductsResponse.countOf : ProductsResponse → Nat
  | .dict r => r.count
  | .connError _ => 0

/-- Python `products_result.get("message", default)` without its default. -/
def ProductsResponse.messageOf : ProductsResponse → Option String
  | .dict r => r.message
  | .connError _ => none

/-- Python `products_result.get("filter_applied", "")` without its default. -/
def ProductsResponse.filterAppliedOf : ProductsResponse → Option String
  | .dict r => some r.filter_applied
  | .connError _ => none

/-- The product-name list of a `get_products` response (`[]` on error). -/
def ProductsResponse.namesList : ProductsResponse → List String
  | .dict r => r.product_names
  | .connError _ => []

/-- The `was_limited` flag of a `get_products` response. -/
def ProductsResponse.wasLimitedOf : ProductsResponse → Bool
  | .dict r => r.was_limited
  | .connError _ => false

/-- The `total_products` counter of a `get_products` response. -/
def ProductsResponse.totalProductsOf : ProductsResponse → Nat
  | .dict r => r.total_products
  | .connError _ => 0

/-- Python `products_result.get("NextPageLink")`: the dict returned by
`get_products` never contains a `NextPageLink` key (see `ProductsOk`), so
this lookup yields `None` on every response. -/
def productsNextPageLink (_ : ProductsResponse) : Option String := none

/-- The dict shapes returned by `get_service_names` other than the
`{"error": ..., "status": "error"}` one; fields that some branch omits are
`Option`s set to `none` there (in particular `status`, which the non-empty
success branches do not set). -/
structure ServiceNamesOk where
  service_family : String
  service_names : List String
  count : Nat
  is_complete : Bool
  status : Option String
  message : Option String
  filter_applied : Option String
  region : Option String
  note : Option String
  processed_items : Option Nat
deriving DecidableEq

/-- A `get_service_names` response. -/
inductive ServiceNamesResponse where
  | dict (r : ServiceNamesOk)
  | connError (msg : String)
deriving DecidableEq

/-- The `$top` value sent by the `Compute` special case of
`get_service_names`: `min(int(max_results), 1000)`. The page size only
shapes the upstream request, so the response model below takes the fetched
page directly and does not consume it. -/
def computeTopParam (max_results : Int) : Int := min max_results 1000

/-- The dict of the `Compute` branch of `get_service_names` when the single
capped request returned no items. -/
def computeEmptySvcOk (service_family region : String) : ServiceNamesOk :=
  { service_family := service_family
    service_names := []
    count := 0
    is_complete := true
    status := some "success"
    message := some ("No products found for family " ++ quoted service_family ++
      " in region " ++ quoted region ++ ".")
    filter_applied := some (buildProductsFilter service_family region "" "")
    region := none
    note := none
    processed_items := none }

/-- The dict of the `Compute` branch of `get_service_names` when the single
capped request returned items: marked incomplete, and with no `status` key. -/
def computeMainSvcOk (service_family region : String)
    (items : List PriceRecord) : ServiceNamesOk :=
  let service_names := uniqueSorted (items.map PriceRecord.serviceName)
  { service_family := service_family
    service_names := service_names
    count := service_names.length
    is_complete := false
    status := none
    message := none
    filter_applied := none
    region := some region
    note := some ("Optimized results for Compute family, limited to " ++
      toString items.length ++ " products")
    processed_items := none }

/-- The dict of the standard path of `get_service_names` when the inner
`get_products` call errored or reported zero products. -/
def stdEmptySvcOk (service_family region : String)
    (products_result : ProductsResponse) : ServiceNamesOk :=
  { service_family := service_family
    service_names := []
    count := 0
    is_complete := true
    status := some "success"
    message := some (products_result.messageOf.getD
      ("No products found for family " ++ quoted service_family ++
        " in region " ++ quoted region ++ "."))
    filter_applied := some (products_result.filterAppliedOf.getD "")
    region := none
    note := none
    processed_items := none }

/-- The dict of the standard path of `get_service_names` when the second,
service-name request failed. -/
def stdFetchErrSvcOk (service_family : String) (e : String) : ServiceNamesOk :=
  { service_family := service_family
    service_names := []
    count := 0
    is_complete := true
    status := some "error"
    message := some ("Error getting service names: " ++ e)
    filter_applied := none
    region := none
    note := none
    processed_items := none }

/-- The success dict of the standard path of `get_service_names`: service
names projected from the second request's items. `is_complete` is computed
from `products_result.get("NextPageLink")`, a key the `get_products` dict
never carries, and it has no `status` key. -/
def stdMainSvcOk (service_family region : String)
    (products_result : ProductsResponse)
    (items : List PriceRecord) : ServiceNamesOk :=
  let service_names := uniqueSorted (items.map PriceRecord.serviceName)
  { service_family := service_family
    service_names := service_names
    count := service_names.length
    is_complete := (productsNextPageLink products_result) = none
    status := none
    message := none
    filter_applied := none
    region := some region
    note := none
    processed_items := some items.length }

/-- `get_service_names`. Inputs model its three possible HTTP requests:
`computeFirst` for the single capped request of the `Compute` special case,
`productsFirst`/`productsFetch` for the inner `get_products` call of the
standard path, and `second` for the `$top = 100` sampling request that the
standard path then makes to read service names. -/
def get_service_names (service_family region : String) (_max_results : Int)
    (computeFirst : Except String Page)
    (productsFirst : Except String Page)
    (productsFetch : String → Except String Page)
    (second : Except String Page) : ServiceNamesResponse :=
  if service_family.toLower = "compute" then
    match computeFirst with
    | .error e => .connError ("Error connecting to API: " ++ e)
    | .ok result =>
      if result.items.length = 0 then
        .dict (computeEmptySvcOk service_family region)
      else
        .dict (computeMainSvcOk service_family region result.items)
  else
    let products_result := get_products service_family region "" "" "" 0
      productsFirst productsFetch
    if products_result.statusOf = "error" ∨ products_result.countOf = 0 then
      .dict (stdEmptySvcOk service_family region products_result)
    else
      match second with
      | .error e => .dict (stdFetchErrSvcOk service_family e)
      | .ok result2 =>
        .dict (stdMainSvcOk service_family region products_result result2.items)

/-- The `status` value of a `get_service_names` response, `none` when the
dict carries no `status` key. -/
def ServiceNamesResponse.statusOf : ServiceNamesResponse → Option String
  | .dict r => r.status
  | .connError _ => some "error"

/-- The service-name list of a `get_service_names` response. -/
def ServiceNamesResponse.namesList : ServiceNamesResponse → List String
  | .dict r => r.service_names
  | .connError _ => []

/-- The `count` of a `get_service_names` response (`0` when absent). -/
def ServiceNamesResponse.countOf : ServiceNamesResponse → Nat
  | .dict r => r.count
  | .connError _ => 0

/-- The `message` of a `get_service_names` response. -/
def ServiceNamesResponse.messageOf : ServiceNamesResponse → Option String
  | .dict r => r.message
  | .connError _ => none

/-- The `is_complete` flag of a `get_service_names` response, `none` on the
error dict, which carries no such key. -/
def ServiceNamesResponse.isCompleteOf : ServiceNamesResponse → Option Bool
  | .dict r => some r.is_complete
  | .connError _ => none

/-- The per-record monthly cost computed by `get_monthly_cost`:
`retailPrice * monthly_hours` when `"Hour"` occurs in `unitOfMeasure`,
otherwise `retailPrice` unchanged. -/
def monthlyCostOf (monthly_hours : Int) (it : PriceRecord) : ℚ :=
  if strContains it.unitOfMeasure "Hour" then it.retailPrice * (monthly_hours : ℚ)
  else it.retailPrice

/-- One entry of the `products` cost breakdown of `get_monthly_cost`. -/
structure CostLine where
  sku_name : String
  meter_name : String
  retail_price : ℚ
  unit_of_measure : String
  monthly_cost : ℚ
  currency : String
deriving DecidableEq

/-- The line item `get_monthly_cost` builds from one record. -/
def toCostLine (monthly_hours : Int) (it : PriceRecord) : CostLine :=
  { sku_name := it.skuName
    meter_name := it.meterName
    retail_price := it.retailPrice
    unit_of_measure := it.unitOfMeasure
    monthly_cost := monthlyCostOf monthly_hours it
    currency := it.currencyCode }

/-- The success dict of `get_monthly_cost`. -/
structure CostOk where
  product_name : String
  region : String
  monthly_hours : Int
  products : List CostLine
  total_monthly_cost : ℚ
  currency : String
  count : Nat
  status : String
deriving DecidableEq

/-- A `get_monthly_cost` response: the success dict, the
`status = "error"` not-found dict, or the `status = "error"` dict built on
a request failure. -/
inductive CostResponse where
  | dict (r : CostOk)
  | notFound (product_name region message filter_applied : String)
  | connError (product_name region msg : String)
deriving DecidableEq

/-- The success dict of `get_monthly_cost` for a non-empty record list:
each record becomes a line item, the total is their sum, the breakdown is
sorted by monthly cost descending (Python's stable `sort(reverse=True)`),
and the currency is read from the first record of the original list. -/
def costMainOk (product_name region : String) (monthly_hours : Int)
    (items : List PriceRecord) : CostOk :=
  let products_costs := items.map (toCostLine monthly_hours)
  let sorted := List.insertionSort
    (fun a b => b.monthly_cost ≤ a.monthly_cost) products_costs
  { product_name := product_name
    region := region
    monthly_hours := monthly_hours
    products := sorted
    total_monthly_cost := (products_costs.map CostLine.monthly_cost).sum
    currency := ((items.head?.map PriceRecord.currencyCode).getD "USD")
    count := sorted.length
    status := "success" }

/-- `get_monthly_cost`: single upstream request returning `Items` (the
`NextPageLink` of the response is never read). Zero matching records yield
the not-found error dict. -/
def get_monthly_cost (product_name region : String) (monthly_hours : Int)
    (ty : String) (first : Except String (List PriceRecord)) : CostResponse :=
  let filter_params := buildCostFilter product_name region ty
  match first with
  | .error e => .connError product_name region ("Error connecting to API: " ++ e)
  | .ok items =>
    if items.length = 0 then
      .notFound product_name region
        ("Product " ++ quoted product_name ++ " not found in region " ++
          quoted region ++ ".")
        filter_params
    else
      .dict (costMainOk product_name region monthly_hours items)

/-- The `status` value of a `get_monthly_cost` response (always present). -/
def CostResponse.statusOf : CostResponse → String
  | .dict r => r.status
  | .notFound _ _ _ _ => "error"
  | .connError _ _ _ => "error"

/-- The cost breakdown of a `get_monthly_cost` response (`[]` on error). -/
def CostResponse.productsOf : CostResponse → List CostLine
  | .dict r => r.products
  | .notFound _ _ _ _ => []
  | .connError _ _ _ => []

/-- The `message` of a `get_monthly_cost` response (only the not-found dict
carries one). -/
def CostResponse.messageOf : CostResponse → Option String
  | .dict _ => none
  | .notFound _ _ m _ => some m
  | .connError _ _ _ => none

/-- The hard-coded service-family list of `list_service_families`. -/
def official_service_families : List String :=
  ["Analytics", "Azure Arc", "Azure Communication Services", "Azure Security",
   "Azure Stack", "Compute", "Containers", "Data", "Databases",
   "Developer Tools", "Dynamics", "Gaming", "Integration",
   "Internet of Things", "Management and Governance", "Microsoft Syntex",
   "Mixed Reality", "Networking", "Other", "Power Platform",
   "Quantum Computing", "Security", "Storage", "Telecommunications", "Web",
   "Windows Virtual Desktop"]

/-- The dict returned by `list_service_families`; it has no `status` key,
modelled by the `Option` field `status` being `none`. -/
structure FamiliesResult where
  service_families : List String
  count : Nat
  source : String
  reference : String
  status : Option String
deriving DecidableEq

/-- `list_service_families`: static data, no upstream request. -/
def list_service_families : FamiliesResult :=
  { service_families := official_service_families
    count := official_service_families.length
    source := "official_documentation"
    reference := "https://learn.microsoft.com/en-us/rest/api/cost-management/retail-prices/azure-retail-prices#supported-servicefamily-values"
    status := none }

/-- The two exemplar records of the claim: an hourly one priced 0.10 and a
monthly one priced 50. -/
def c1items : List PriceRecord :=
  [{ unitOfMeasure := "1 Hour", retailPrice := 0.1 },
   { unitOfMeasure := "1/Month", retailPrice := 50 }]

/-- The line item built from the hourly exemplar record. -/
def c1hourLine : CostLine := toCostLine 730 { unitOfMeasure := "1 Hour", retailPrice := 0.1 }

/-- The line item built from the monthly exemplar record. -/
def c1monthLine : CostLine := toCostLine 730 { unitOfMeasure := "1/Month", retailPrice := 50 }

/-- A record whose product name matches the exemplar filter. -/
def c6rec : PriceRecord := { productName := "Azure Cache for Redis" }

/-- One single-page catalog with 12 distinct product names. -/
def c5page : Page :=
  { items := [{ productName := "p01" }, { productName := "p02" },
      { productName := "p03" }, { productName := "p04" }, { productName := "p05" },
      { productName := "p06" }, { productName := "p07" }, { productName := "p08" },
      { productName := "p09" }, { productName := "p10" }, { productName := "p11" },
      { productName := "p12" }]
    nextPageLink := none }

/-- A record with both a service and a product name, for the pagination
scenarios. -/
def c9rec : PriceRecord := { serviceName := "Service A", productName := "Prod A" }

/-- A fetch whose every page carries a further continuation link, so the
page cap is always hit with a link remaining. -/
def c9fetch : String → Except String Page :=
  fun _ => .ok { items := [c9rec], nextPageLink := some "next" }

/-- `charListLe` is total. -/
theorem charListLe_total : ∀ as bs : List Char,
    charListLe as bs = true ∨ charListLe bs as = true := by
  intro as
  induction as with
  | nil => intro bs; left; rfl
  | cons a as ih =>
    intro bs
    cases bs with
    | nil => right; rfl
    | cons b bs =>
      by_cases hab : a = b
      · subst hab
        rcases ih bs with h | h
        · left; simpa [charListLe] using h
        · right; simpa [charListLe] using h
      · rcases lt_or_gt_of_ne hab with h | h
        · left; simp [charListLe, hab, h]
        · right; simp [charListLe, Ne.symm hab, h]

/-- `charListLe` is transitive. -/
theorem charListLe_trans : ∀ as bs cs : List Char,
    charListLe as bs = true → charListLe bs cs = true →
    charListLe as cs = true := by
  intro as
  induction as with
  | nil => intro bs cs _ _; rfl
  | cons a as ih =>
    intro bs cs h1 h2
    cases bs with
    | nil => simp [charListLe] at h1
    | cons b bs =>
      cases cs with
      | nil => simp [charListLe] at h2
      | cons c cs =>
        by_cases hab : a = b
        · subst hab
          rw [charListLe, if_pos rfl] at h1
          by_cases hac : a = c
          · subst hac
            rw [charListLe, if_pos rfl] at h2 ⊢
            exact ih bs cs h1 h2
          · rw [charListLe, if_neg hac] at h2 ⊢
            exact h2
        · rw [charListLe, if_neg hab] at h1
          have hab' : a < b := of_decide_eq_true h1
          by_cases hbc : b = c
          · subst hbc
            rw [charListLe, if_neg hab]
            exact h1
          · rw [charListLe, if_neg hbc] at h2
            have hbc' : b < c := of_decide_eq_true h2
            have hac' : a < c := lt_trans hab' hbc'
            rw [charListLe, if_neg (ne_of_lt hac')]
            exact decide_eq_true hac'

instance : IsTotal String (fun a b => strLe a b = true) :=
  ⟨fun a b => charListLe_total a.toList b.toList⟩

instance : IsTrans String (fun a b => strLe a b = true) :=
  ⟨fun a b c h1 h2 => charListLe_trans a.toList b.toList c.toList h1 h2⟩

/-- The name lists the projections build are duplicate-free. -/
theorem uniqueSorted_nodup (l : List String) : (uniqueSorted l).Nodup :=
  (List.perm_insertionSort _ _).nodup_iff.mpr (List.nodup_dedup _)

/-- The name lists the projections build are sorted. -/
theorem uniqueSorted_pairwise (l : List String) :
    (uniqueSorted l).Pairwise (fun a b => strLe a b = true) :=
  List.sorted_insertionSort _ _

/-- Membership in a projected name list: exactly the non-empty names of the
input. -/
theorem uniqueSorted_mem {s : String} {l : List String} :
    s ∈ uniqueSorted l ↔ s ∈ l ∧ s ≠ "" := by
  unfold uniqueSorted
  rw [(List.perm_insertionSort _ _).mem_iff, List.mem_dedup, List.mem_filter]
  simp

/-- Unfolding equation of `paginateLoop`: exhausted fuel. -/
theorem paginateLoop_zero (fetch : String → Except String Page)
    (link : Option String) (acc : List PriceRecord) (pc : Nat) :
    paginateLoop fetch 0 link acc pc = (acc, pc, link) := rfl

/-- Unfolding equation of `paginateLoop`: no continuation link. -/
theorem paginateLoop_succ_none (fetch : String → Except String Page)
    (fuel : Nat) (acc : List PriceRecord) (pc : Nat) :
    paginateLoop fetch (fuel + 1) none acc pc = (acc, pc, none) := rfl

/-- Unfolding equation of `paginateLoop`: a failing fetch breaks the loop. -/
theorem paginateLoop_succ_err {fetch : String → Except String Page}
    {l e : String} (hf : fetch l = .error e) (fuel : Nat)
    (acc : List PriceRecord) (pc : Nat) :
    paginateLoop fetch (fuel + 1) (some l) acc pc = (acc, pc, some l) := by
  simp only [paginateLoop, hf]

/-- Unfolding equation of `paginateLoop`: a successful fetch appends the
page's items and continues. -/
theorem paginateLoop_succ_ok {fetch : String → Except String Page}
    {l : String} {page : Page} (hf : fetch l = .ok page) (fuel : Nat)
    (acc : List PriceRecord) (pc : Nat) :
    paginateLoop fetch (fuel + 1) (some l) acc pc =
      paginateLoop fetch fuel page.nextPageLink (acc ++ page.items) (pc + 1) := by
  simp only [paginateLoop, hf]

/-- Loop invariant of `paginateLoop`: the final page count grows by at most
`fuel`, and everything appended to `acc` is the concatenation of one item
list per additionally fetched page. -/
theorem paginateLoop_spec (fetch : String → Except String Page) :
    ∀ (fuel : Nat) (link : Option String) (acc : List PriceRecord) (pc : Nat),
    (paginateLoop fetch fuel link acc pc).2.1 ≤ pc + fuel ∧
    ∃ pgs : List (List PriceRecord),
      pgs.length + pc = (paginateLoop fetch fuel link acc pc).2.1 ∧
      (paginateLoop fetch fuel link acc pc).1 = acc ++ pgs.flatten := by
  intro fuel
  induction fuel with
  | zero =>
    intro link acc pc
    rw [paginateLoop_zero]
    exact ⟨Nat.le_refl _, [], by simp, by simp⟩
  | succ fuel ih =>
    intro link acc pc
    cases link with
    | none =>
      rw [paginateLoop_succ_none]
      exact ⟨Nat.le_add_right pc (fuel + 1), [], by simp, by simp⟩
    | some l =>
      cases hf : fetch l with
      | error e =>
        rw [paginateLoop_succ_err hf]
        exact ⟨Nat.le_add_right pc (fuel + 1), [], by simp, by simp⟩
      | ok page =>
        rw [paginateLoop_succ_ok hf]
        obtain ⟨h1, pgs, h2, h3⟩ := ih page.nextPageLink (acc ++ page.items) (pc + 1)
        refine ⟨by omega, page.items :: pgs, by simp only [List.length_cons]; omega, ?_⟩
        rw [h3, List.flatten_cons, List.append_assoc]

/-- C2: in the pagination loop of `get_products` (which starts at
`page_count = 1` and stops at `max_pages = 3`), the final page count never
exceeds 3 and the accumulated record list is the concatenation of the item
lists of at most 3 fetched pages, no matter how many continuation links the
upstream keeps reporting. -/
theorem claim_C2_pagination_never_exceeds_three_pages
    (pg : Page) (fetch : String → Except String Page) :
    (paginateLoop fetch (maxPages - 1) pg.nextPageLink pg.items 1).2.1 ≤ maxPages ∧
    ∃ pgs : List (List PriceRecord),
      pgs.length = (paginateLoop fetch (maxPages - 1) pg.nextPageLink pg.items 1).2.1 ∧
      pgs.length ≤ maxPages ∧
      paginateAll pg fetch = pgs.flatten := by
  obtain ⟨h1, pgs, h2, h3⟩ :=
    paginateLoop_spec fetch (maxPages - 1) pg.nextPageLink pg.items 1
  have hcap : 1 + (maxPages - 1) = maxPages := by simp [maxPages]
  refine ⟨by omega, pg.items :: pgs, by simp only [List.length_cons]; omega,
    by simp only [List.length_cons]; omega, ?_⟩
  rw [paginateAll, h3, List.flatten_cons]

/-- Taking a prefix preserves the no-duplicates and sortedness facts. -/
theorem nodup_pairwise_take {l : List String} (n : Nat)
    (h : l.Nodup ∧ l.Pairwise (fun a b => strLe a b = true)) :
    (l.take n).Nodup ∧ (l.take n).Pairwise (fun a b => strLe a b = true) :=
  ⟨h.1.sublist (List.take_sublist n l), h.2.sublist (List.take_sublist n l)⟩

/-- The product-name list of every `get_products` response is duplicate-free
and sorted. -/
theorem get_products_namesList_ok
    (sf rg ty sn pnc : String) (lim : Int) (first : Except String Page)
    (fetch : String → Except String Page) :
    (get_products sf rg ty sn pnc lim first fetch).namesList.Nodup ∧
    (get_products sf rg ty sn pnc lim first fetch).namesList.Pairwise
      (fun a b => strLe a b = true) := by
  cases first with
  | error e => exact ⟨List.nodup_nil, List.Pairwise.nil⟩
  | ok result =>
    by_cases h : result.items.length = 0
    · simp only [get_products, if_pos h]
      exact ⟨List.nodup_nil, List.Pairwise.nil⟩
    · simp only [get_products, if_neg h, ProductsResponse.namesList, mainProductsOk]
      split
      · exact nodup_pairwise_take _ ⟨uniqueSorted_nodup _, uniqueSorted_pairwise _⟩
      · exact ⟨uniqueSorted_nodup _, uniqueSorted_pairwise _⟩

/-- The service-name list of every `get_service_names` response is
duplicate-free and sorted. -/
theorem get_service_names_namesList_ok
    (sf rg : String) (mr : Int) (cf pf sr : Except String Page)
    (pfe : String → Except String Page) :
    (get_service_names sf rg mr cf pf pfe sr).namesList.Nodup ∧
    (get_service_names sf rg mr cf pf pfe sr).namesList.Pairwise
      (fun a b => strLe a b = true) := by
  unfold get_service_names
  by_cases hc : sf.toLower = "compute"
  · simp only [if_pos hc]
    cases cf with
    | error e => exact ⟨List.nodup_nil, List.Pairwise.nil⟩
    | ok result =>
      by_cases h : result.items.length = 0
      · simp only [if_pos h]
        exact ⟨List.nodup_nil, List.Pairwise.nil⟩
      · simp only [if_neg h, ServiceNamesResponse.namesList, computeMainSvcOk]
        exact ⟨uniqueSorted_nodup _, uniqueSorted_pairwise _⟩
  · simp only [if_neg hc]
    split
    · exact ⟨List.nodup_nil, List.Pairwise.nil⟩
    · cases sr with
      | error e => exact ⟨List.nodup_nil, List.Pairwise.nil⟩
      | ok result2 =>
        simp only [ServiceNamesResponse.namesList, stdMainSvcOk]
        exact ⟨uniqueSorted_nodup _, uniqueSorted_pairwise _⟩

/-- C3: every product-name projection of `get_products` and every
service-name projection of `get_service_names` returns a list with no
duplicates that is sorted in ascending alphabetical (code point) order. -/
theorem claim_C3_projections_unique_and_sorted
    (sf rg ty sn pnc : String) (lim : Int) (first : Except String Page)
    (fetch : String → Except String Page)
    (sf2 rg2 : String) (mr : Int) (cf pf sr : Except String Page)
    (pfe : String → Except String Page) :
    ((get_products sf rg ty sn pnc lim first fetch).namesList.Nodup ∧
      (get_products sf rg ty sn pnc lim first fetch).namesList.Pairwise
        (fun a b => strLe a b = true)) ∧
    ((get_service_names sf2 rg2 mr cf pf pfe sr).namesList.Nodup ∧
      (get_service_names sf2 rg2 mr cf pf pfe sr).namesList.Pairwise
        (fun a b => strLe a b = true)) :=
  ⟨get_products_namesList_ok sf rg ty sn pnc lim first fetch,
   get_service_names_namesList_ok sf2 rg2 mr cf pf sr pfe⟩

/-- C1: every line item of a `get_monthly_cost` success breakdown carries
`monthly_cost = retail_price * monthly_hours` when its unit of measure
contains `"Hour"`, and `monthly_cost = retail_price` unchanged otherwise. -/
theorem claim_C1_monthly_cost_formula
    (pn rg : String) (mh : Int) (ty : String) (items : List PriceRecord)
    (line : CostLine)
    (hline : line ∈ (get_monthly_cost pn rg mh ty (.ok items)).productsOf) :
    line.monthly_cost =
      if strContains line.unit_of_measure "Hour" then line.retail_price * (mh : ℚ)
      else line.retail_price := by
  by_cases h : items.length = 0
  · simp [get_monthly_cost, h, CostResponse.productsOf] at hline
  · simp only [get_monthly_cost, if_neg h, CostResponse.productsOf, costMainOk] at hline
    rw [(List.perm_insertionSort _ _).mem_iff] at hline
    obtain ⟨it, hit, rfl⟩ := List.mem_map.mp hline
    simp [toCostLine, monthlyCostOf]

/-- Witness for C1 at the claim's own exemplars: the hourly record priced
0.10 with 730 monthly hours yields 73, the monthly record priced 50 stays
50. -/
theorem claim_C1_monthly_cost_formula_witness :
    c1hourLine ∈ (get_monthly_cost "Test Product" "westeurope" 730 "Consumption"
      (.ok c1items)).productsOf ∧
    c1monthLine ∈ (get_monthly_cost "Test Product" "westeurope" 730 "Consumption"
      (.ok c1items)).productsOf ∧
    c1hourLine.monthly_cost =
      (if strContains c1hourLine.unit_of_measure "Hour" then
        c1hourLine.retail_price * ((730 : Int) : ℚ)
      else c1hourLine.retail_price) ∧
    c1hourLine.monthly_cost = 73 ∧
    c1monthLine.monthly_cost = 50 := by
  have hmemH : c1hourLine ∈ (get_monthly_cost "Test Product" "westeurope" 730
      "Consumption" (.ok c1items)).productsOf := by with_unfolding_all decide
  have hmemM : c1monthLine ∈ (get_monthly_cost "Test Product" "westeurope" 730
      "Consumption" (.ok c1items)).productsOf := by with_unfolding_all decide
  exact ⟨hmemH, hmemM,
    claim_C1_monthly_cost_formula "Test Product" "westeurope" 730 "Consumption"
      c1items c1hourLine hmemH,
    by with_unfolding_all decide, by with_unfolding_all decide⟩

/-- C6: with a non-empty `product_name_contains` filter, every name in the
returned product list passes the case-insensitive substring check the
filter applies (the filter runs before deduplication, so the surviving
names are exactly productNames of records that passed it). -/
theorem claim_C6_name_filter_case_insensitive
    (sf rg ty sn pnc : String) (lim : Int) (first : Except String Page)
    (fetch : String → Except String Page) (hpnc : pnc ≠ "") (name : String)
    (hname : name ∈ (get_products sf rg ty sn pnc lim first fetch).namesList) :
    strContains name.toLower pnc.toLower = true := by
  cases first with
  | error e => simp [get_products, ProductsResponse.namesList] at hname
  | ok result =>
    by_cases h : result.items.length = 0
    · have h' : result.items = [] := List.length_eq_zero.mp h
      simp [get_products, h', ProductsResponse.namesList, emptyProductsOk] at hname
    · simp only [get_products, if_neg h, ProductsResponse.namesList,
        mainProductsOk] at hname
      have hmem : name ∈ allNamesOf pnc result fetch := by
        revert hname
        split
        · exact fun hname => List.take_subset _ _ hname
        · exact fun hname => hname
      rw [allNamesOf, uniqueSorted_mem] at hmem
      obtain ⟨it, hit, rfl⟩ := List.mem_map.mp hmem.1
      rw [applyNameFilter, if_pos hpnc] at hit
      exact (List.mem_filter.mp hit).2

/-- Witness for C6 at a concrete input: the filter "Redis" is non-empty,
the name "Azure Cache for Redis" is returned, and it passes the
case-insensitive containment check. -/
theorem claim_C6_name_filter_case_insensitive_witness :
    ("Redis" ≠ "" ∧
      "Azure Cache for Redis" ∈ (get_products "Databases" "westeurope" "" "" "Redis" 0
        (.ok { items := [c6rec], nextPageLink := none })
        (fun _ => .error "unreachable")).namesList) ∧
    strContains "Azure Cache for Redis".toLower "Redis".toLower = true := by
  refine ⟨⟨by decide, by with_unfolding_all decide⟩, ?_⟩
  exact claim_C6_name_filter_case_insensitive "Databases" "westeurope" "" "" "Redis" 0
    (.ok { items := [c6rec], nextPageLink := none }) (fun _ => .error "unreachable")
    (by decide) "Azure Cache for Redis" (by with_unfolding_all decide)

/-- C5: when `limit > 0` and the deduplicated unique-name count exceeds it,
`get_products` returns exactly the first `limit` names of the sorted unique
list, sets `was_limited`, reports the full unique count in
`total_products`, and `count` equals `limit`. -/
theorem claim_C5_limit_truncation
    (sf rg ty sn pnc : String) (lim : Int) (pg : Page)
    (fetch : String → Except String Page)
    (hne : pg.items.length ≠ 0) (hl : 0 < lim)
    (hgt : lim < ((allNamesOf pnc pg fetch).length : Int)) :
    (get_products sf rg ty sn pnc lim (.ok pg) fetch).namesList =
      (allNamesOf pnc pg fetch).take lim.toNat ∧
    (get_products sf rg ty sn pnc lim (.ok pg) fetch).wasLimitedOf = true ∧
    (get_products sf rg ty sn pnc lim (.ok pg) fetch).totalProductsOf =
      (allNamesOf pnc pg fetch).length ∧
    (get_products sf rg ty sn pnc lim (.ok pg) fetch).countOf = lim.toNat := by
  have hcond : 0 < lim ∧ lim < ((allNamesOf pnc pg fetch).length : Int) := ⟨hl, hgt⟩
  refine ⟨?_, ?_, ?_, ?_⟩ <;>
    simp only [get_products, if_neg hne, ProductsResponse.namesList,
      ProductsResponse.wasLimitedOf, ProductsResponse.totalProductsOf,
      ProductsResponse.countOf, mainProductsOk, if_pos hcond]
  · exact decide_eq_true hcond
  · rw [List.length_take]
    omega

/-- Witness for C5 at a concrete input: 12 unique names and `limit = 5`
give exactly 5 names, `was_limited = true` and `total_products = 12`. -/
theorem claim_C5_limit_truncation_witness :
    (c5page.items.length ≠ 0 ∧ (0 : Int) < 5 ∧
      (5 : Int) < ((allNamesOf "" c5page (fun _ => .error "x")).length : Int)) ∧
    ((get_products "Compute" "westeurope" "" "" "" 5 (.ok c5page)
        (fun _ => .error "x")).namesList =
      (allNamesOf "" c5page (fun _ => .error "x")).take (5 : Int).toNat ∧
     (get_products "Compute" "westeurope" "" "" "" 5 (.ok c5page)
        (fun _ => .error "x")).wasLimitedOf = true ∧
     (get_products "Compute" "westeurope" "" "" "" 5 (.ok c5page)
        (fun _ => .error "x")).totalProductsOf =
      (allNamesOf "" c5page (fun _ => .error "x")).length ∧
     (get_products "Compute" "westeurope" "" "" "" 5 (.ok c5page)
        (fun _ => .error "x")).countOf = (5 : Int).toNat) ∧
    (allNamesOf "" c5page (fun _ => .error "x")).length = 12 ∧
    (get_products "Compute" "westeurope" "" "" "" 5 (.ok c5page)
      (fun _ => .error "x")).countOf = 5 := by
  refine ⟨⟨by decide, by decide, by decide⟩, ?_, by decide, by decide⟩
  exact claim_C5_limit_truncation "Compute" "westeurope" "" "" "" 5 c5page
    (fun _ => .error "x") (by decide) (by decide) (by decide)

/-- With a fetch that always fails, pagination accumulates nothing beyond
the first page. -/
theorem paginateAll_failFetch (pg : Page) (m : String) :
    paginateAll pg (fun _ => .error m) = pg.items := by
  unfold paginateAll
  cases hlk : pg.nextPageLink with
  | none => rfl
  | some l =>
    rw [show maxPages - 1 = 1 + 1 from rfl,
      @paginateLoop_succ_err (fun _ => Except.error m) l m rfl 1 pg.items 1]

/-- C7: a failure of the first upstream request makes the whole
`get_products` call return the structured error dict; a failure while
fetching a continuation page stops the loop with the records accumulated so
far, and the call then behaves exactly as if no continuation link had
existed, returning a normal success result. -/
theorem claim_C7_first_vs_continuation_failure
    (sf rg ty sn pnc : String) (lim : Int) (e m : String) (pg : Page)
    (fetch : String → Except String Page) (l msg : String) (fuel : Nat)
    (acc : List PriceRecord) (pc : Nat) :
    (get_products sf rg ty sn pnc lim (.error e) fetch =
      .connError ("Error connecting to API: " ++ e)) ∧
    (fetch l = .error msg →
      paginateLoop fetch (fuel + 1) (some l) acc pc = (acc, pc, some l)) ∧
    (get_products sf rg ty sn pnc lim (.ok pg) (fun _ => .error m) =
      get_products sf rg ty sn pnc lim
        (.ok { items := pg.items, nextPageLink := none }) (fun _ => .error m)) ∧
    (get_products sf rg ty sn pnc lim (.ok pg) (fun _ => .error m)).statusOf =
      "success" := by
  refine ⟨rfl, fun hf => paginateLoop_succ_err hf fuel acc pc, ?_, ?_⟩
  · simp only [get_products, mainProductsOk, allNamesOf, paginateAll_failFetch]
  · by_cases h : pg.items.length = 0 <;>
      simp [get_products, h, ProductsResponse.statusOf, emptyProductsOk,
        mainProductsOk]

/-- Witness for C7 at a concrete input: the failing continuation fetch stops
the loop keeping the accumulated records, and the call still reports
success. -/
theorem claim_C7_first_vs_continuation_failure_witness :
    ((fun _ => Except.error "boom" : String → Except String Page) "L" =
      .error "boom") ∧
    paginateLoop (fun _ => Except.error "boom") 3 (some "L") [] 1 =
      ([], 1, some "L") ∧
    (get_products "Storage" "westeurope" "" "" "" 0
      (.ok { items := [c6rec], nextPageLink := some "L" })
      (fun _ => .error "boom")).statusOf = "success" := by
  refine ⟨rfl, ?_, ?_⟩
  · exact (claim_C7_first_vs_continuation_failure "Storage" "westeurope" "" "" "" 0
      "e" "boom" { items := [c6rec], nextPageLink := some "L" }
      (fun _ => Except.error "boom") "L" "boom" 2 [] 1).2.1 rfl
  · exact (claim_C7_first_vs_continuation_failure "Storage" "westeurope" "" "" "" 0
      "e" "boom" { items := [c6rec], nextPageLink := some "L" }
      (fun _ => Except.error "boom") "L" "boom" 2 [] 1).2.2.2

/-- C4 counterexample: `get_monthly_cost` on an upstream first page with
zero matching records returns `status = "error"`, not a success result, so
the claim fails for that operation. -/
theorem claim_C4_counterexample :
    (get_monthly_cost "Azure App Service Premium v3 Plan" "westeurope" 730
      "Consumption" (.ok [])).statusOf = "error" ∧
    ¬ ((get_monthly_cost "Azure App Service Premium v3 Plan" "westeurope" 730
      "Consumption" (.ok [])).statusOf = "success") :=
  ⟨rfl, by decide⟩

/-- C4 amended: an upstream first page with zero matching records yields a
success result with `count = 0` and a descriptive message for
`get_products` and for both paths of `get_service_names`, while
`get_monthly_cost` instead returns a structured `status = "error"` result
with a message. -/
theorem claim_C4_empty_first_page_amended
    (sf rg ty sn pnc : String) (lim : Int) (lk lkc lkp : Option String)
    (fetch pfe pfe2 : String → Except String Page)
    (rg2 : String) (mr : Int) (pf sr cf sr2 : Except String Page)
    (sf2 : String) (hsf : sf2.toLower ≠ "compute")
    (pn rg3 : String) (mh : Int) (ty3 : String) :
    ((get_products sf rg ty sn pnc lim (.ok { items := [], nextPageLink := lk })
        fetch).statusOf = "success" ∧
      (get_products sf rg ty sn pnc lim (.ok { items := [], nextPageLink := lk })
        fetch).countOf = 0 ∧
      (get_products sf rg ty sn pnc lim (.ok { items := [], nextPageLink := lk })
        fetch).messageOf.isSome = true) ∧
    ((get_service_names "Compute" rg2 mr (.ok { items := [], nextPageLink := lkc })
        pf pfe sr).statusOf = some "success" ∧
      (get_service_names "Compute" rg2 mr (.ok { items := [], nextPageLink := lkc })
        pf pfe sr).countOf = 0 ∧
      (get_service_names "Compute" rg2 mr (.ok { items := [], nextPageLink := lkc })
        pf pfe sr).messageOf.isSome = true) ∧
    ((get_service_names sf2 rg2 mr cf (.ok { items := [], nextPageLink := lkp })
        pfe2 sr2).statusOf = some "success" ∧
      (get_service_names sf2 rg2 mr cf (.ok { items := [], nextPageLink := lkp })
        pfe2 sr2).countOf = 0 ∧
      (get_service_names sf2 rg2 mr cf (.ok { items := [], nextPageLink := lkp })
        pfe2 sr2).messageOf.isSome = true) ∧
    ((get_monthly_cost pn rg3 mh ty3 (.ok [])).statusOf = "error" ∧
      (get_monthly_cost pn rg3 mh ty3 (.ok [])).messageOf.isSome = true) := by
  refine ⟨⟨rfl, rfl, rfl⟩, ?_, ?_, ⟨rfl, rfl⟩⟩
  · have hc : ("Compute" : String).toLower = "compute" := by with_unfolding_all decide
    simp [get_service_names, hc, ServiceNamesResponse.statusOf,
      ServiceNamesResponse.countOf, ServiceNamesResponse.messageOf,
      computeEmptySvcOk]
  · simp [get_service_names, hsf, get_products, ProductsResponse.statusOf,
      ProductsResponse.countOf, ProductsResponse.messageOf, stdEmptySvcOk,
      emptyProductsOk, ServiceNamesResponse.statusOf,
      ServiceNamesResponse.countOf, ServiceNamesResponse.messageOf]

/-- Witness for the amended C4 at concrete inputs, with the non-Compute
hypothesis discharged at family "Storage". -/
theorem claim_C4_empty_first_page_amended_witness :
    (get_products "Storage" "westeurope" "" "" "" 0
      (.ok { items := [], nextPageLink := none })
      (fun _ => .error "x")).statusOf = "success" ∧
    (get_service_names "Compute" "westeurope" 500
      (.ok { items := [], nextPageLink := none }) (.error "x")
      (fun _ => .error "x") (.error "x")).statusOf = some "success" ∧
    (get_service_names "Storage" "westeurope" 500 (.error "x")
      (.ok { items := [], nextPageLink := none })
      (fun _ => .error "x") (.error "x")).statusOf = some "success" ∧
    (get_monthly_cost "p" "westeurope" 730 "Consumption" (.ok [])).statusOf =
      "error" := by
  have h := claim_C4_empty_first_page_amended "Storage" "westeurope" "" "" "" 0
    none none none (fun _ => .error "x") (fun _ => .error "x")
    (fun _ => .error "x") "westeurope" 500 (.error "x") (.error "x")
    (.error "x") (.error "x") "Storage" (by with_unfolding_all decide)
    "p" "westeurope" 730 "Consumption"
  exact ⟨h.1.1, h.2.1.1, h.2.2.1.1, h.2.2.2.1⟩

/-- C8 counterexample: the dict returned by `list_service_families` carries
no `status` key at all, refuting the claim that every response of the four
operations contains one. -/
theorem claim_C8_counterexample :
    list_service_families.status = none ∧
    list_service_families.count = 26 := ⟨rfl, rfl⟩

/-- C8 amended: `get_products` and `get_monthly_cost` always return a
`status` of `"success"` or `"error"`; `list_service_families` never carries
a `status` key; `get_service_names` responses carry `"success"` or
`"error"` when they carry a `status` at all, but the non-empty success
responses of both its paths omit the key. -/
theorem claim_C8_status_field_amended
    (sf rg ty sn pnc : String) (lim : Int) (first : Except String Page)
    (fetch : String → Except String Page)
    (pn rgc : String) (mh : Int) (tyc : String)
    (firstc : Except String (List PriceRecord))
    (sf2 rg2 : String) (mr : Int) (cf pf sr : Except String Page)
    (pfe : String → Except String Page)
    (sf3 rg3 : String) (mr3 : Int) (lk3 : Option String) (it : PriceRecord)
    (its : List PriceRecord) (pf3 sr3 : Except String Page)
    (pfe3 : String → Except String Page)
    (sf4 rg4 : String) (mr4 : Int) (cf4 pf4 : Except String Page)
    (pfe4 : String → Except String Page) (pg4 : Page) :
    ((get_products sf rg ty sn pnc lim first fetch).statusOf = "success" ∨
      (get_products sf rg ty sn pnc lim first fetch).statusOf = "error") ∧
    ((get_monthly_cost pn rgc mh tyc firstc).statusOf = "success" ∨
      (get_monthly_cost pn rgc mh tyc firstc).statusOf = "error") ∧
    list_service_families.status = none ∧
    ((get_service_names sf2 rg2 mr cf pf pfe sr).statusOf = some "success" ∨
      (get_service_names sf2 rg2 mr cf pf pfe sr).statusOf = some "error" ∨
      (get_service_names sf2 rg2 mr cf pf pfe sr).statusOf = none) ∧
    (sf3.toLower = "compute" →
      (get_service_names sf3 rg3 mr3
        (.ok { items := it :: its, nextPageLink := lk3 }) pf3 pfe3
        sr3).statusOf = none) ∧
    (sf4.toLower ≠ "compute" →
      (get_products sf4 rg4 "" "" "" 0 pf4 pfe4).statusOf ≠ "error" →
      (get_products sf4 rg4 "" "" "" 0 pf4 pfe4).countOf ≠ 0 →
      (get_service_names sf4 rg4 mr4 cf4 pf4 pfe4 (.ok pg4)).statusOf =
        none) := by
  refine ⟨?_, ?_, rfl, ?_, ?_, ?_⟩
  · cases first with
    | error e => exact Or.inr rfl
    | ok result =>
      by_cases h : result.items.length = 0 <;>
        simp [get_products, h, ProductsResponse.statusOf, emptyProductsOk,
          mainProductsOk]
  · cases firstc with
    | error e => exact Or.inr rfl
    | ok items =>
      by_cases h : items.length = 0 <;>
        simp [get_monthly_cost, h, CostResponse.statusOf, costMainOk]
  · unfold get_service_names
    by_cases hc : sf2.toLower = "compute"
    · simp only [if_pos hc]
      cases cf with
      | error e => exact Or.inr (Or.inl rfl)
      | ok result =>
        by_cases h : result.items.length = 0
        · simp only [if_pos h]
          exact Or.inl rfl
        · simp only [if_neg h]
          exact Or.inr (Or.inr rfl)
    · simp only [if_neg hc]
      split
      · exact Or.inl rfl
      · cases sr with
        | error e => exact Or.inr (Or.inl rfl)
        | ok result2 => exact Or.inr (Or.inr rfl)
  · intro hc
    simp [get_service_names, hc, ServiceNamesResponse.statusOf, computeMainSvcOk]
  · intro hc hs hcnt
    have hcond : ¬ ((get_products sf4 rg4 "" "" "" 0 pf4 pfe4).statusOf = "error" ∨
        (get_products sf4 rg4 "" "" "" 0 pf4 pfe4).countOf = 0) := by
      rintro (h | h)
      · exact hs h
      · exact hcnt h
    simp only [get_service_names, if_neg hc, if_neg hcond]
    rfl

/-- Witness for the amended C8 at concrete inputs, discharging the Compute
and non-Compute hypotheses. -/
theorem claim_C8_status_field_amended_witness :
    ((get_products "Storage" "westeurope" "" "" "" 0
        (.ok { items := [c6rec], nextPageLink := none })
        (fun _ => .error "x")).statusOf = "success" ∨
      (get_products "Storage" "westeurope" "" "" "" 0
        (.ok { items := [c6rec], nextPageLink := none })
        (fun _ => .error "x")).statusOf = "error") ∧
    (get_service_names "Compute" "westeurope" 500
      (.ok { items := [c6rec], nextPageLink := none }) (.error "x")
      (fun _ => .error "x") (.error "x")).statusOf = none ∧
    (get_service_names "Storage" "westeurope" 500 (.error "x")
      (.ok { items := [c6rec], nextPageLink := none }) (fun _ => .error "x")
      (.ok { items := [c6rec], nextPageLink := none })).statusOf = none := by
  have h := claim_C8_status_field_amended "Storage" "westeurope" "" "" "" 0
    (.ok { items := [c6rec], nextPageLink := none }) (fun _ => .error "x")
    "p" "westeurope" 730 "Consumption" (.ok [])
    "Storage" "westeurope" 500 (.error "x") (.error "x") (.error "x")
    (fun _ => .error "x")
    "Compute" "westeurope" 500 none c6rec [] (.error "x") (.error "x")
    (fun _ => .error "x")
    "Storage" "westeurope" 500 (.error "x")
    (.ok { items := [c6rec], nextPageLink := none }) (fun _ => .error "x")
    { items := [c6rec], nextPageLink := none }
  exact ⟨h.1, h.2.2.2.2.1 (by with_unfolding_all decide),
    h.2.2.2.2.2 (by with_unfolding_all decide) (by decide) (by decide)⟩

/-- C9: on the standard (non-Compute) path, `is_complete` is computed from
`products_result.get("NextPageLink")`, but the dict `get_products` returns
has no such key, so the lookup is always `None` and `is_complete` is always
true — here even though the underlying pagination stopped at the page cap
with a continuation link still present (first conjunct), the returned
`is_complete` is `true` (second conjunct), where the claim requires
`false`. -/
theorem claim_C9_is_complete_ignores_remaining_link :
    (paginateLoop c9fetch (maxPages - 1) (some "first") [c9rec] 1).2.2 =
      some "next" ∧
    (get_service_names "Storage" "westeurope" 500 (.error "unused")
      (.ok { items := [c9rec], nextPageLink := some "first" }) c9fetch
      (.ok { items := [c9rec], nextPageLink := some "next" })).isCompleteOf =
      some true := by
  constructor
  · decide
  · with_unfolding_all decide

/-- C10: under a case-insensitive match of the family with "compute", the
special-cased single request is taken; a non-empty page yields
`is_complete = false` with no `status` key, while an empty page yields
`is_complete = true` with `status = "success"`. -/
theorem claim_C10_compute_special_case
    (sf rg : String) (mr : Int) (lk lk2 : Option String) (it : PriceRecord)
    (its : List PriceRecord) (pf sr : Except String Page)
    (pfe : String → Except String Page) (hsf : sf.toLower = "compute") :
    ((get_service_names sf rg mr (.ok { items := it :: its, nextPageLink := lk })
        pf pfe sr).statusOf = none ∧
      (get_service_names sf rg mr (.ok { items := it :: its, nextPageLink := lk })
        pf pfe sr).isCompleteOf = some false) ∧
    ((get_service_names sf rg mr (.ok { items := [], nextPageLink := lk2 })
        pf pfe sr).statusOf = some "success" ∧
      (get_service_names sf rg mr (.ok { items := [], nextPageLink := lk2 })
        pf pfe sr).isCompleteOf = some true) := by
  refine ⟨⟨?_, ?_⟩, ⟨?_, ?_⟩⟩ <;>
    simp [get_service_names, hsf, ServiceNamesResponse.statusOf,
      ServiceNamesResponse.isCompleteOf, computeMainSvcOk, computeEmptySvcOk]

/-- Witness for C10 at the concrete family "COMPUTE" (showing the match is
case-insensitive), with both the non-empty and the empty page shapes. -/
theorem claim_C10_compute_special_case_witness :
    ((get_service_names "COMPUTE" "westeurope" 500
        (.ok { items := [c9rec], nextPageLink := none }) (.error "x")
        (fun _ => .error "x") (.error "x")).statusOf = none ∧
      (get_service_names "COMPUTE" "westeurope" 500
        (.ok { items := [c9rec], nextPageLink := none }) (.error "x")
        (fun _ => .error "x") (.error "x")).isCompleteOf = some false) ∧
    ((get_service_names "COMPUTE" "westeurope" 500
        (.ok { items := [], nextPageLink := none }) (.error "x")
        (fun _ => .error "x") (.error "x")).statusOf = some "success" ∧
      (get_service_names "COMPUTE" "westeurope" 500
        (.ok { items := [], nextPageLink := none }) (.error "x")
        (fun _ => .error "x") (.error "x")).isCompleteOf = some true) :=
  claim_C10_compute_special_case "COMPUTE" "westeurope" 500 none none c9rec []
    (.error "x") (.error "x") (fun _ => .error "x")
    (by with_unfolding_all decide)
